import Mathlib

/-!
Verification of the checkcookie Enhanced Session Checker (v3 script, with the
v2-variant utility functions) against its natural-language specification.

The JavaScript source is shallowly embedded below.  JavaScript machine
numbers appear as `Int`/`Nat` (the values involved are small integers), a
`parseInt` result of `NaN` is embedded as `Option.none`, and every call to
`Date.now()` is embedded by consuming one value of an explicit clock
argument, so that the time-dependence of each filtering pass is visible in
the model.  Browser-driver calls (page snapshots, navigation) are embedded
as explicit inputs to the pure functions that consume their results.
-/

namespace CheckCookie

/-! ### Generic string helpers

JavaScript operations used by the source: `String.prototype.includes`,
`String.prototype.toLowerCase` (all data involved is ASCII),
`String.prototype.split`, and `parseInt`. -/

/-- Embedding of JavaScript substring search on characters lists:
`containsSub needle hay` is true iff `needle` occurs contiguously in
`hay`. -/
def containsSub (needle : List Char) : List Char → Bool
  | [] => needle.isEmpty
  | c :: t => needle.isPrefixOf (c :: t) || containsSub needle t

/-- Embedding of JavaScript `hay.includes(needle)`. -/
def containsStr (hay needle : String) : Bool :=
  containsSub needle.data hay.data

/-- Embedding of JavaScript `s.startsWith(p)`. -/
def startsWithStr (s p : String) : Bool :=
  p.data.isPrefixOf s.data

/-- Embedding of JavaScript `s.toLowerCase()` for ASCII data. -/
def toLowerStr (s : String) : String :=
  ⟨s.data.map Char.toLower⟩

/-- Whitespace characters recognized by JavaScript `trim`. -/
def isJsSpace (c : Char) : Bool :=
  c == ' ' || c == '\t' || c == '\n' || c == '\r' || c == '\x0b' || c == '\x0c'

/-- Embedding of the truthiness of `line.trim()`: true iff the line holds a
non-whitespace character. -/
def hasNonWhitespaceChar (line : String) : Bool :=
  line.data.any (fun c => !isJsSpace c)

/-- Splitter worker for JavaScript `s.split(sep)` with a non-empty
separator; the fuel argument starts at the haystack length, which every
recursive call strictly decreases together with the haystack, so the
exhaustion arm is never reached on the initial call. -/
def splitOnCharsGo (sep : List Char) : Nat → List Char → List (List Char)
  | _, [] => [[]]
  | 0, hay => [hay]
  | fuel + 1, c :: t =>
    if !sep.isEmpty && sep.isPrefixOf (c :: t) then
      [] :: splitOnCharsGo sep fuel (List.drop (sep.length - 1) t)
    else
      match splitOnCharsGo sep fuel t with
      | [] => [[c]]
      | h :: rest => (c :: h) :: rest

/-- Embedding of JavaScript `s.split(sep)` for a non-empty separator. -/
def splitStr (sep s : String) : List String :=
  (splitOnCharsGo sep.data s.data.length s.data).map (fun l => ⟨l⟩)

/-- Embedding of JavaScript `line.split("\t")`. -/
def splitTab (s : String) : List String :=
  splitStr "\t" s

/-- Embedding of JavaScript `content.split("\n")`. -/
def splitNewline (s : String) : List String :=
  splitStr "\n" s

/-- Numeric value of a run of ASCII digits. -/
def digitsToNat (ds : List Char) : Nat :=
  ds.foldl (fun acc c => acc * 10 + (c.toNat - 48)) 0

/-- Embedding of JavaScript `parseInt(s, 10)`: skip leading whitespace, read
an optional sign, then the longest prefix of decimal digits; `NaN` (no
digits) is embedded as `none`. -/
def parseIntJS (s : String) : Option Int :=
  let cs := s.data.dropWhile (fun c => c == ' ' || c == '\t' || c == '\n' || c == '\r')
  let signed : Bool × List Char :=
    match cs with
    | '-' :: rest => (true, rest)
    | '+' :: rest => (false, rest)
    | _ => (false, cs)
  let digits := signed.2.takeWhile Char.isDigit
  if digits.isEmpty then none
  else if signed.1 then some (-(digitsToNat digits : Int))
  else some (digitsToNat digits : Int)

/-- Characters matched by the regex class `[\w.-]`: word characters, dot and
hyphen. -/
def isWordDotDash (c : Char) : Bool :=
  c.isAlphanum || c == '_' || c == '.' || c == '-'

/-! ### Association lists

The source accumulates per-domain data in JavaScript `Map`s built by
lookup-or-insert; they are embedded as insertion-ordered association
lists. -/

/-- Lookup in an insertion-ordered association list (JavaScript
`map.get(k)` / `map.has(k)`). -/
def alLookup (m : List (String × α)) (k : String) : Option α :=
  match m with
  | [] => none
  | (k₀, v₀) :: rest => if k₀ = k then some v₀ else alLookup rest k

/-- Embedding of `if (!map.has(k)) map.set(k, [])`. -/
def alEnsure (m : List (String × List α)) (k : String) : List (String × List α) :=
  match alLookup m k with
  | some _ => m
  | none => m ++ [(k, [])]

/-- Embedding of `map.get(k).push(v)` on a key already present (appends the
key with a singleton list when absent, matching the lookup-or-insert
idiom). -/
def alPush (m : List (String × List α)) (k : String) (v : α) : List (String × List α) :=
  match m with
  | [] => [(k, [v])]
  | (k₀, v₀) :: rest =>
    if k₀ = k then (k₀, v₀ ++ [v]) :: rest else (k₀, v₀) :: alPush rest k v

/-! ### Configuration constants

Embedded from the `CONFIG` object of the v3 script (part_001 lines
20-56). -/

/-- CONFIG.detection.loginKeywords. -/
def loginKeywords : List String :=
  ["sign in", "log in", "login", "password", "forgot password",
   "enter your password", "authentication", "two-factor", "2fa",
   "create account", "register", "signin", "sign up"]

/-- CONFIG.detection.loggedInKeywords. -/
def loggedInKeywords : List String :=
  ["dashboard", "profile", "settings", "account", "logout", "sign out",
   "welcome", "my account", "notifications", "messages", "balance",
   "transaction", "statement", "portfolio", "investment", "inbox",
   "compose", "upload", "post", "timeline", "feed"]

/-- CONFIG.detection.highValueDomains. -/
def highValueDomains : List String :=
  ["vancity.com", "td.com", "rbc.com", "bmo.com", "scotiabank.com",
   "americanexpress.com", "capitalone.com", "visa.com", "mastercard.com",
   "gmail.com", "google.com", "outlook.com", "hotmail.com",
   "linkedin.com", "facebook.com", "twitter.com", "x.com",
   "paypal.com", "amazon.com", "walmart.com", "costco.ca"]

/-! ### Domain keys (the normalization actually performed by the source) -/

/-- Embedding of `parts[0].replace(/^[^\w.-]/, "")` (part_001 line 166): a
single leading character is removed only when it is not a word character,
dot or hyphen. -/
def cookieDomainKey (s : String) : String :=
  match s.data with
  | [] => s
  | c :: rest => if isWordDotDash c then s else ⟨rest⟩

/-- Embedding of `hostname.replace(/^www[^\w.-]/, "")` (part_001 lines 221,
271, 321): the regex removes a literal `www` together with one following
character only when that character is not a word character, dot or
hyphen. -/
def wwwStrip (s : String) : String :=
  match s.data with
  | 'w' :: 'w' :: 'w' :: c :: rest =>
    if isWordDotDash c then s else ⟨rest⟩
  | _ => s

/-- Embedding of `new URL(url).hostname` for absolute URLs written with an
explicit `://`: the part between the first `://` and the next `/`, `:`,
`?` or `#`, lowercased by the URL parser; `none` embeds the `URL`
constructor throwing (caught and skipped by the source). -/
def urlHostname (url : String) : Option String :=
  match splitStr "://" url with
  | _ :: rest₀ :: more =>
    let after := String.intercalate "://" (rest₀ :: more)
    let host := after.data.takeWhile
      (fun c => !(c == '/' || c == ':' || c == '?' || c == '#'))
    if host.isEmpty then none else some (toLowerStr ⟨host⟩)
  | _ => none

/-! ### Cookie Validity Filter -/

/-- Embedding of the expiry test `expiry > now || expiry === 0` shared by
the discovery-time filter (part_001 line 174) and the injection-time filter
(part_001 line 636); a `NaN` expiry (`none`) fails both comparisons. -/
def isValidExpiry (expiry : Option Int) (now : Int) : Bool :=
  match expiry with
  | none => false
  | some e => decide (e > now) || decide (e = 0)

/-- Validity of one cookie line as judged at both part_001 invocation
sites: at least 7 tab-separated fields and a passing expiry test. -/
def cookieLineValid (line : String) (now : Int) : Bool :=
  let parts := splitTab line
  decide (parts.length ≥ 7) && isValidExpiry (parseIntJS (parts.getD 4 "")) now

/-- Embedding of `isCookieExpired` from the v2-variant utilities (part_002
lines 395-400): `expiry !== 0 && expiry < now`, with fewer than 7 fields
counted as expired; for a `NaN` expiry the conjunction is false, so the
line counts as not expired. -/
def isCookieExpired (cookieLine : String) (now : Int) : Bool :=
  let parts := splitTab cookieLine
  if parts.length < 7 then true
  else
    match parseIntJS (parts.getD 4 "") with
    | none => false
    | some e => decide (e ≠ 0) && decide (e < now)

/-! ### Discovery-time cookie file processing

Embedding of `CookieIntelligenceSystem.processCookieFile` (part_001 lines
152-203).  The source evaluates `Math.floor(Date.now() / 1000)` inside the
per-line loop, once for every line with at least 7 fields; the embedding
makes this visible by consuming `clock k` for the k-th such line. -/

/-- Line filter applied to cookie file content (part_001 lines 156 and
623): keep non-blank lines that are not `#` comments. -/
def cookieFileLines (content : String) : List String :=
  (splitNewline content).filter
    (fun line => hasNonWhitespaceChar line && !startsWithStr line "#")

/-- Accumulator state of the discovery-time per-line loop. -/
structure DiscoveryState where
  domainCookies : List (String × List String)
  validCount : Nat
  expiredCount : Nat
  clockIdx : Nat
deriving Repr, DecidableEq

/-- One iteration of the part_001 lines 162-185 loop. -/
def discoveryStep (clock : Nat → Int) (st : DiscoveryState) (line : String) :
    DiscoveryState :=
  let parts := splitTab line
  if parts.length ≥ 7 then
    let domain := cookieDomainKey (parts.getD 0 "")
    let expiry := parseIntJS (parts.getD 4 "")
    let now := clock st.clockIdx
    let m := alEnsure st.domainCookies domain
    if isValidExpiry expiry now then
      { domainCookies := alPush m domain line
        validCount := st.validCount + 1
        expiredCount := st.expiredCount
        clockIdx := st.clockIdx + 1 }
    else
      { domainCookies := m
        validCount := st.validCount
        expiredCount := st.expiredCount + 1
        clockIdx := st.clockIdx + 1 }
  else st

/-- Embedding of `processCookieFile` restricted to its per-domain filtering
pass (the storage into `discoveredData` and console output are plumbing). -/
def processCookieFile (content : String) (clock : Nat → Int) : DiscoveryState :=
  (cookieFileLines content).foldl (discoveryStep clock) ⟨[], 0, 0, 0⟩

/-! ### Injection-time cookie reading

Embedding of `T1CookieInjector.readAndValidateCookies` (part_001 lines
621-654).  Here `const now = ...` stands before the loop, so only `clock 0`
is ever consulted. -/

/-- Puppeteer cookie record built at part_001 lines 637-645. -/
structure PuppeteerCookie where
  name : String
  value : String
  domain : String
  path : String
  expires : Option Int
  httpOnly : Bool
  secure : Bool
deriving Repr, DecidableEq

/-- One iteration of the part_001 lines 628-651 loop at a fixed `now`. -/
def injectionStep (now : Int) (acc : List PuppeteerCookie) (line : String) :
    List PuppeteerCookie :=
  let parts := splitTab line
  if parts.length ≥ 7 then
    if isValidExpiry (parseIntJS (parts.getD 4 "")) now then
      acc ++ [{ name := parts.getD 5 ""
                value := parts.getD 6 ""
                domain := parts.getD 0 ""
                path := parts.getD 2 ""
                expires :=
                  match parseIntJS (parts.getD 4 "") with
                  | some e => if e > 0 then some e else none
                  | none => none
                httpOnly := parts.getD 1 "" == "TRUE"
                secure := parts.getD 3 "" == "TRUE" }]
    else acc
  else acc

/-- Embedding of `readAndValidateCookies`: the timestamp is read once
(`clock 0`) and every line of the pass is judged against it. -/
def readAndValidateCookies (content : String) (clock : Nat → Int) :
    List PuppeteerCookie :=
  let now := clock 0
  (cookieFileLines content).foldl (injectionStep now) []

/-! ### History, password and autofill line parsing

Embeddings of the per-line bodies of `processHistoryFile` (part_001 lines
214-238), `processPasswordFile` (lines 264-288) and `processAutofillFile`
(lines 314-338).  Each returns the normalized domain key together with the
typed record, or `none` when the line is dropped. -/

/-- History record (url, title, visitCount). -/
structure HistoryEntry where
  url : String
  title : String
  visitCount : Int
deriving Repr, DecidableEq

/-- Password record; the password value itself is only probed for
non-emptiness. -/
structure PasswordEntry where
  url : String
  username : String
  hasPassword : Bool
deriving Repr, DecidableEq

/-- Autofill record. -/
structure AutofillEntry where
  fieldName : String
  fieldValue : String
  url : String
deriving Repr, DecidableEq

/-- Embedding of `parseInt(parts[2]) || 1`: `NaN` and `0` both fall back to
1. -/
def visitCountOr1 (v : Option Int) : Int :=
  match v with
  | none => 1
  | some 0 => 1
  | some n => n

/-- One history line: URL in field 0, must start with `http`, keyed by
`wwwStrip` of the URL hostname. -/
def processHistoryLine (line : String) : Option (String × HistoryEntry) :=
  let parts := splitTab line
  let url := parts.getD 0 ""
  if startsWithStr url "http" then
    match urlHostname url with
    | none => none
    | some host =>
      some (wwwStrip host,
        { url := url
          title := parts.getD 1 ""
          visitCount := visitCountOr1 (parseIntJS (parts.getD 2 "")) })
  else none

/-- One password line: at least 3 fields, URL in field 0. -/
def processPasswordLine (line : String) : Option (String × PasswordEntry) :=
  let parts := splitTab line
  if parts.length ≥ 3 then
    let url := parts.getD 0 ""
    if startsWithStr url "http" then
      match urlHostname url with
      | none => none
      | some host =>
        some (wwwStrip host,
          { url := url
            username := parts.getD 1 ""
            hasPassword := (parts.getD 2 "").length > 0 })
    else none
  else none

/-- One autofill line: at least 3 fields, URL in field 2. -/
def processAutofillLine (line : String) : Option (String × AutofillEntry) :=
  let parts := splitTab line
  if parts.length ≥ 3 then
    let url := parts.getD 2 ""
    if startsWithStr url "http" then
      match urlHostname url with
      | none => none
      | some host =>
        some (wwwStrip host,
          { fieldName := parts.getD 0 ""
            fieldValue := parts.getD 1 ""
            url := url })
    else none
  else none

/-! ### Cross-Reference Engine

Embedding of `CookieIntelligenceSystem.analyzeDiscoveredData` and
`isAuthenticatedUrl` (part_001 lines 355-467). -/

/-- Provenance-tagged group of raw cookie lines from one source file. -/
structure CookieGroup where
  source : String
  cookies : List String
deriving Repr, DecidableEq

/-- Provenance-tagged group of history entries from one source file. -/
structure HistoryGroup where
  source : String
  entries : List HistoryEntry
deriving Repr, DecidableEq

/-- Provenance-tagged group of password entries from one source file. -/
structure PasswordGroup where
  source : String
  entries : List PasswordEntry
deriving Repr, DecidableEq

/-- Provenance-tagged group of autofill entries from one source file. -/
structure AutofillGroup where
  source : String
  entries : List AutofillEntry
deriving Repr, DecidableEq

/-- The four per-domain artifact maps of `this.discoveredData`. -/
structure DiscoveredData where
  cookies : List (String × List CookieGroup)
  history : List (String × List HistoryGroup)
  passwords : List (String × List PasswordGroup)
  autofills : List (String × List AutofillGroup)
deriving Repr, DecidableEq

/-- Authenticated endpoint candidate (part_001 lines 409-413). -/
structure EndpointInfo where
  url : String
  title : String
  visitCount : Int
deriving Repr, DecidableEq

/-- The fixed authenticated-path patterns (part_001 lines 459-464). -/
def authPatterns : List String :=
  ["/dashboard", "/profile", "/account", "/settings", "/my-account",
   "/home", "/feed", "/inbox", "/messages", "/notifications",
   "/balance", "/transactions", "/statements", "/portfolio",
   "/admin", "/user", "/member", "/secure", "/private"]

/-- Embedding of `isAuthenticatedUrl` (part_001 lines 458-467): a substring
test of each pattern against the whole lowercased URL. -/
def isAuthenticatedUrl (url : String) : Bool :=
  authPatterns.any (fun pattern => containsStr (toLowerStr url) pattern)

/-- Modelled from the spec: the authenticated-endpoint classification as the
specification words it, namely that one of the URL path segments equals a
member of the fixed pattern set.  Stated for comparison with the
`isAuthenticatedUrl` of the source. -/
def isAuthenticatedUrlSpec (url : String) : Bool :=
  match splitStr "://" url with
  | _ :: rest₀ :: more =>
    let after := String.intercalate "://" (rest₀ :: more)
    let path : String := ⟨after.data.dropWhile (fun c => c ≠ '/')⟩
    (splitStr "/" (toLowerStr path)).any
      (fun seg => authPatterns.contains ("/" ++ seg))
  | _ => false

/-- Stable descending insertion of an endpoint by visit count. -/
def insertEndpointDesc (x : EndpointInfo) : List EndpointInfo → List EndpointInfo
  | [] => [x]
  | y :: ys =>
    if y.visitCount < x.visitCount then x :: y :: ys else y :: insertEndpointDesc x ys

/-- Embedding of `.sort((a, b) => b.visitCount - a.visitCount)` (part_001
line 418) as a stable sort by visit count descending. -/
def sortEndpointsDesc : List EndpointInfo → List EndpointInfo
  | [] => []
  | x :: xs => insertEndpointDesc x (sortEndpointsDesc xs)

/-- The per-domain analysis record (part_001 lines 381-393). -/
structure DomainAnalysis where
  hasCookies : Bool
  hasHistory : Bool
  hasPasswords : Bool
  hasAutofills : Bool
  totalCookies : Nat
  totalHistoryEntries : Nat
  totalPasswords : Nat
  totalAutofills : Nat
  authenticatedEndpoints : List EndpointInfo
  highValue : Bool
  crossReferenceScore : Nat
deriving Repr, DecidableEq

/-- Embedding of the body of the part_001 lines 371-448 loop for one
domain: presence flags from the four maps, endpoint extraction from the
history groups (filter, sort by visit count descending, keep the top 5),
and the weighted cross-reference score capped at 100. -/
def analyzeDomain (data : DiscoveredData) (domain : String) : DomainAnalysis :=
  let cookieGroups := (alLookup data.cookies domain).getD []
  let historyGroups := (alLookup data.history domain).getD []
  let passwordGroups := (alLookup data.passwords domain).getD []
  let autofillGroups := (alLookup data.autofills domain).getD []
  let hasCookies := (alLookup data.cookies domain).isSome
  let hasHistory := (alLookup data.history domain).isSome
  let hasPasswords := (alLookup data.passwords domain).isSome
  let hasAutofills := (alLookup data.autofills domain).isSome
  let highValue := highValueDomains.contains domain
  let authenticatedEndpoints :=
    if historyGroups.length > 0 then
      let authUrls := (historyGroups.foldl (fun acc g => acc ++ g.entries) []).filterMap
        (fun e =>
          if isAuthenticatedUrl e.url then
            some ({ url := e.url, title := e.title, visitCount := e.visitCount } : EndpointInfo)
          else none)
      (sortEndpointsDesc authUrls).take 5
    else []
  let score : Nat :=
    (if hasCookies then 40 else 0) + (if hasHistory then 20 else 0) +
    (if hasPasswords then 25 else 0) + (if hasAutofills then 15 else 0) +
    (if highValue then 20 else 0) +
    (if authenticatedEndpoints.length > 0 then 30 else 0)
  { hasCookies := hasCookies
    hasHistory := hasHistory
    hasPasswords := hasPasswords
    hasAutofills := hasAutofills
    totalCookies := cookieGroups.foldl (fun sum c => sum + c.cookies.length) 0
    totalHistoryEntries := historyGroups.foldl (fun sum h => sum + h.entries.length) 0
    totalPasswords := passwordGroups.foldl (fun sum p => sum + p.entries.length) 0
    totalAutofills := autofillGroups.foldl (fun sum a => sum + a.entries.length) 0
    authenticatedEndpoints := authenticatedEndpoints
    highValue := highValue
    crossReferenceScore := min score 100 }

/-- Union of the keys of the four artifact maps in first-insertion order
(the `new Set([...])` of part_001 lines 359-364). -/
def unionDomains (data : DiscoveredData) : List String :=
  (data.cookies.map Prod.fst ++ data.history.map Prod.fst ++
   data.passwords.map Prod.fst ++ data.autofills.map Prod.fst).eraseDups

/-- Embedding of `analyzeDiscoveredData`: one profile per domain observed
in any artifact map. -/
def analyzeDiscoveredData (data : DiscoveredData) :
    List (String × DomainAnalysis) :=
  (unionDomains data).map (fun d => (d, analyzeDomain data d))

/-! ### Session Classifier

Embedding of `SessionAnalyzer.performDetectionAnalysis` (part_001 lines
710-763).  JavaScript arithmetic on the confidence value is exact rational
arithmetic here; `Math.round` on the non-negative values involved is
`round` on `ℚ`. -/

/-- Classifier verdict record. -/
structure DetectionResult where
  loggedInScore : Nat
  loginScore : Nat
  confidence : Int
  isLoggedIn : Bool
  status : String
  hasLogoutButton : Bool
  hasWelcomeMessage : Bool
  hasPersonalInfo : Bool
  hasAuthenticatedContent : Bool
deriving Repr, DecidableEq

/-- Number of keywords from `keywords` found in the lowercased markup,
title or URL (the two scoring loops of part_001 lines 719-730). -/
def keywordHits (keywords : List String) (htmlLower titleLower urlLower : String) : Nat :=
  keywords.countP (fun keyword =>
    containsStr htmlLower keyword || containsStr titleLower keyword ||
    containsStr urlLower keyword)

/-- Embedding of `performDetectionAnalysis`. -/
def performDetectionAnalysis (html title url : String) : DetectionResult :=
  let htmlLower := toLowerStr html
  let titleLower := toLowerStr title
  let urlLower := toLowerStr url
  let baseLoggedIn := keywordHits loggedInKeywords htmlLower titleLower urlLower
  let loginScore := keywordHits loginKeywords htmlLower titleLower urlLower
  let hasLogoutButton := containsStr htmlLower "logout" || containsStr htmlLower "sign out"
  let hasWelcomeMessage := containsStr htmlLower "welcome" || containsStr htmlLower "hello"
  let hasPersonalInfo := containsStr htmlLower "profile" || containsStr htmlLower "account"
  let hasAuthenticatedContent := containsStr htmlLower "dashboard" || containsStr htmlLower "inbox"
  let loggedInScore := baseLoggedIn +
    (if hasLogoutButton then 3 else 0) + (if hasWelcomeMessage then 2 else 0) +
    (if hasPersonalInfo then 2 else 0) + (if hasAuthenticatedContent then 3 else 0)
  let confidence : Int :=
    round (((loggedInScore : ℚ) / ((loggedInScore : ℚ) + (loginScore : ℚ) + 1 / 10)) * 100)
  let isLoggedIn := decide (confidence ≥ 60)
  { loggedInScore := loggedInScore
    loginScore := loginScore
    confidence := confidence
    isLoggedIn := isLoggedIn
    status := if isLoggedIn then "LOGGED_IN" else "NOT_LOGGED_IN"
    hasLogoutButton := hasLogoutButton
    hasWelcomeMessage := hasWelcomeMessage
    hasPersonalInfo := hasPersonalInfo
    hasAuthenticatedContent := hasAuthenticatedContent }

/-! ### T-1 Timing Controller

Embedding of `T1CookieInjector.injectCookiesWithT1Timing` followed by the
navigation call of the caller (part_001 lines 578-619 and 1240-1261).  The
awaited steps run strictly sequentially; the embedding emits one
timestamped event per logged phase transition, advancing an explicit clock
by the configured delay of each `setTimeout` and by the (arbitrary,
environment-chosen) duration of each browser-driver call. -/

/-- Timing delays of `CONFIG.timing` (part_001 lines 30-35). -/
structure TimingConfig where
  tMinus1Delay : Nat
  injectionDelay : Nat
  navigationDelay : Nat
  analysisDelay : Nat
deriving Repr, DecidableEq

/-- The CONFIG.timing values of the source. -/
def defaultTiming : TimingConfig :=
  { tMinus1Delay := 2000, injectionDelay := 500
    navigationDelay := 1000, analysisDelay := 3000 }

/-- Observable phase events of one domain test. -/
inductive TEvent where
  | prepStart
  | cookiesPrepared
  | injectionComplete
  | navStart
  | navComplete
  | errorRecorded
deriving Repr, DecidableEq

/-- Timestamped trace of one T-1 test cycle: preparation sleep and cookie
read, then either the error path (empty validated list throws, caught by
the caller as an errored result, and no navigation is issued) or injection,
the injection and navigation settling sleeps, test-URL determination and
the `page.goto` call. -/
def t1TestTrace (cfg : TimingConfig) (cookieCount : Nat)
    (readTime setCookieTime urlTime gotoTime t0 : Nat) : List (Nat × TEvent) :=
  let tPrepDone := t0 + cfg.tMinus1Delay + readTime
  if cookieCount = 0 then
    [(t0, TEvent.prepStart), (tPrepDone, TEvent.errorRecorded)]
  else
    let tInjected := tPrepDone + setCookieTime + cfg.injectionDelay
    let tNavStart := tInjected + cfg.navigationDelay + urlTime
    [(t0, TEvent.prepStart), (tPrepDone, TEvent.cookiesPrepared),
     (tInjected, TEvent.injectionComplete),
     (tNavStart, TEvent.navStart),
     (tNavStart + gotoTime, TEvent.navComplete)]

/-! ### Automatic testing loop and Result Aggregator

Embedding of the per-domain loop of `runAutoTestingMode` (part_001 lines
1232-1297) and of the summary computation of `saveTestResults` (lines
1582-1609).  Navigation and content capture are embedded as a page
snapshot carried by the input; the try/catch around each iteration turns
the empty-cookie throw of `injectCookiesWithT1Timing` into an errored
result and continues with the next domain. -/

/-- Input of one domain test: the prepared cookie file and the page
snapshot the browser would deliver after navigation. -/
structure DomainTestInput where
  domain : String
  cookieFileContent : String
  pageHtml : String
  pageTitle : String
  pageUrl : String
deriving Repr, DecidableEq

/-- Result record pushed into `results`: a completed test with its
classifier verdict, or the errored record built in the catch block. -/
inductive TestRecord where
  | completed (domain : String) (detection : DetectionResult)
  | errored (domain : String) (message : String)
deriving Repr, DecidableEq

/-- One iteration of the testing loop. -/
def runDomainTest (clock : Nat → Int) (inp : DomainTestInput) : TestRecord :=
  let cookies := readAndValidateCookies inp.cookieFileContent clock
  if cookies.isEmpty then
    TestRecord.errored inp.domain ("No valid cookies found for " ++ inp.domain)
  else
    TestRecord.completed inp.domain
      (performDetectionAnalysis inp.pageHtml inp.pageTitle inp.pageUrl)

/-- Embedding of the whole sequential loop: one result per prepared cookie
file, in order. -/
def runAutoTestingMode (clock : Nat → Int) (inputs : List DomainTestInput) :
    List TestRecord :=
  inputs.map (runDomainTest clock)

/-- Successful result predicate (`r.detection?.isLoggedIn`). -/
def isSuccessfulRec : TestRecord → Bool
  | TestRecord.completed _ d => d.isLoggedIn
  | TestRecord.errored _ _ => false

/-- Failed result predicate (`r.detection && !r.detection.isLoggedIn`). -/
def isFailedRec : TestRecord → Bool
  | TestRecord.completed _ d => !d.isLoggedIn
  | TestRecord.errored _ _ => false

/-- Errored result predicate (`r.status === "ERROR"`). -/
def isErrorRec : TestRecord → Bool
  | TestRecord.completed _ _ => false
  | TestRecord.errored _ _ => true

/-- Embedding of JavaScript division for the success-rate computation:
division by zero yields no rational number (`NaN` or `Infinity`), embedded
as `none`. -/
def jsDivOpt (a b : ℚ) : Option ℚ :=
  if b = 0 then none else some (a / b)

/-- Summary record of `saveTestResults`. -/
structure TestSummary where
  totalTested : Nat
  successful : Nat
  failed : Nat
  errors : Nat
  successRate : Option ℚ
deriving Repr, DecidableEq

/-- Embedding of the summary computation (part_001 lines 1587-1601):
`successRate` is `successful.length / (results.length - errors.length)`,
with no guard for a zero denominator. -/
def saveTestResultsSummary (results : List TestRecord) : TestSummary :=
  let successful := results.countP isSuccessfulRec
  let failed := results.countP isFailedRec
  let errors := results.countP isErrorRec
  { totalTested := results.length
    successful := successful
    failed := failed
    errors := errors
    successRate := jsDivOpt (successful : ℚ) ((results.length - errors : Nat) : ℚ) }

/-! ### Concrete inputs used by witnesses and counterexamples -/

/-- Discovery data for one domain carrying all six score signals. -/
def demoData : DiscoveredData :=
  { cookies := [("facebook.com", [{ source := "c.txt", cookies := ["line"] }])]
    history := [("facebook.com",
      [{ source := "h.txt"
         entries := [{ url := "https://facebook.com/dashboard", title := "t", visitCount := 3 }] }])]
    passwords := [("facebook.com",
      [{ source := "p.txt"
         entries := [{ url := "https://facebook.com/login", username := "u", hasPassword := true }] }])]
    autofills := [("facebook.com",
      [{ source := "a.txt"
         entries := [{ fieldName := "f", fieldValue := "v", url := "https://facebook.com/x" }] }])] }

/-- Cookie file content holding two identical still-valid cookie lines. -/
def twoCookieLines : String :=
  "a.com\tFALSE\t/\tFALSE\t1000\tn\tv\na.com\tFALSE\t/\tFALSE\t1000\tn\tv"

/-- Well-formed cookie line whose expiry field does not parse as an
integer. -/
def nanLine : String :=
  "example.com\tFALSE\t/\tTRUE\tnotanumber\tname\tvalue"

/-- Cookie line with expiry 1000. -/
def expiry1000Line : String :=
  "example.com\tFALSE\t/\tFALSE\t1000\tsid\tv"

/-- Test inputs for the automatic-testing loop: a domain with an empty
cookie file followed by a domain with one valid session cookie. -/
def demoTestInputs : List DomainTestInput :=
  [{ domain := "a.com", cookieFileContent := ""
     pageHtml := "", pageTitle := "", pageUrl := "" },
   { domain := "b.com", cookieFileContent := "b.com\tFALSE\t/\tFALSE\t0\tsid\tv"
     pageHtml := "dashboard logout", pageTitle := "", pageUrl := "" }]

/-- Completed test record with an explicit classifier verdict. -/
def demoCompletedRecord : TestRecord :=
  TestRecord.completed "b.com"
    { loggedInScore := 8, loginScore := 0, confidence := 99, isLoggedIn := true
      status := "LOGGED_IN", hasLogoutButton := true, hasWelcomeMessage := false
      hasPersonalInfo := false, hasAuthenticatedContent := true }

/-! ### Helper lemmas -/

theorem isPrefixOf_iff_append (l₁ l₂ : List Char) :
    l₁.isPrefixOf l₂ = true ↔ ∃ t, l₂ = l₁ ++ t := by
  induction l₁ generalizing l₂ with
  | nil => simp [List.isPrefixOf]
  | cons a as ih =>
    cases l₂ with
    | nil => simp [List.isPrefixOf]
    | cons b bs =>
      simp only [List.isPrefixOf, Bool.and_eq_true, beq_iff_eq, ih]
      constructor
      · rintro ⟨rfl, t, rfl⟩
        exact ⟨t, rfl⟩
      · rintro ⟨t, h⟩
        injection h with h1 h2
        exact ⟨h1.symm, t, h2⟩

theorem containsSub_iff (needle hay : List Char) :
    containsSub needle hay = true ↔ ∃ l r, hay = l ++ needle ++ r := by
  induction hay with
  | nil =>
    simp only [containsSub, List.isEmpty_iff]
    constructor
    · rintro rfl
      exact ⟨[], [], rfl⟩
    · rintro ⟨l, r, h⟩
      rcases List.append_eq_nil.mp h.symm with ⟨h1, h2⟩
      exact (List.append_eq_nil.mp h1).2
  | cons c t ih =>
    simp only [containsSub, Bool.or_eq_true, isPrefixOf_iff_append, ih]
    constructor
    · rintro (⟨r, hr⟩ | ⟨l, r, hr⟩)
      · exact ⟨[], r, by simpa using hr⟩
      · exact ⟨c :: l, r, by simp [hr]⟩
    · rintro ⟨l, r, hr⟩
      cases l with
      | nil =>
        exact Or.inl ⟨r, by simpa using hr⟩
      | cons c₀ l₀ =>
        injection hr with h1 h2
        exact Or.inr ⟨l₀, r, h2⟩

/-- Inserting a missing key with an empty group list never changes the
record list observed under any key. -/
theorem alEnsure_lookup_getD (m : List (String × List α)) (k d : String) :
    (alLookup (alEnsure m k) d).getD [] = (alLookup m d).getD [] := by
  unfold alEnsure
  cases h : alLookup m k with
  | some v => rfl
  | none =>
    induction m with
    | nil =>
      by_cases hkd : k = d <;> simp [alLookup, hkd]
    | cons p rest ih =>
      obtain ⟨k₀, v₀⟩ := p
      by_cases hk : k₀ = k
      · simp [alLookup, hk] at h
      · by_cases hd : k₀ = d
        · simp [alLookup, hd]
        · have hrest : alLookup rest k = none := by
            simpa [alLookup, hk] using h
          simpa [alLookup, hd] using ih hrest

/-! ### Claim C1 -/

/-- C1: every domain profile produced by the Cross-Reference Engine has
crossReferenceScore equal to the sum of the fixed weights over the signals
present for that domain (40 for a cookie group, 20 for a history group, 25
for a password group, 15 for an autofill group, 20 for watchlist
membership, 30 for an extracted authenticated endpoint), capped at 100; a
domain with all six signals scores exactly min(150, 100) = 100. -/
theorem C1_cross_reference_score (data : DiscoveredData) (d : String) (a : DomainAnalysis)
    (hmem : (d, a) ∈ analyzeDiscoveredData data) :
    a.crossReferenceScore =
      min ((if (alLookup data.cookies d).isSome then 40 else 0) +
           (if (alLookup data.history d).isSome then 20 else 0) +
           (if (alLookup data.passwords d).isSome then 25 else 0) +
           (if (alLookup data.autofills d).isSome then 15 else 0) +
           (if highValueDomains.contains d then 20 else 0) +
           (if a.authenticatedEndpoints ≠ [] then 30 else 0)) 100 ∧
    ((alLookup data.cookies d).isSome → (alLookup data.history d).isSome →
     (alLookup data.passwords d).isSome → (alLookup data.autofills d).isSome →
     highValueDomains.contains d = true → a.authenticatedEndpoints ≠ [] →
     a.crossReferenceScore = 100) := by
  obtain ⟨d₀, hd₀, heq⟩ := List.mem_map.mp hmem
  have hd : d₀ = d := congrArg Prod.fst heq
  subst hd
  have ha : analyzeDomain data d₀ = a := congrArg Prod.snd heq
  subst ha
  have hscore : (analyzeDomain data d₀).crossReferenceScore =
      min ((if (alLookup data.cookies d₀).isSome then 40 else 0) +
           (if (alLookup data.history d₀).isSome then 20 else 0) +
           (if (alLookup data.passwords d₀).isSome then 25 else 0) +
           (if (alLookup data.autofills d₀).isSome then 15 else 0) +
           (if highValueDomains.contains d₀ then 20 else 0) +
           (if (analyzeDomain data d₀).authenticatedEndpoints ≠ [] then 30 else 0)) 100 := by
    simp only [analyzeDomain, gt_iff_lt, List.length_pos]
  refine ⟨hscore, fun h1 h2 h3 h4 h5 h6 => ?_⟩
  rw [hscore]
  simp only [h1, h2, h3, h4, h5, h6, if_true, ne_eq, not_false_eq_true]
  omega

/-- C1 witness: concrete data with all six signals for facebook.com scores
exactly 100. -/
theorem C1_cross_reference_score_witness :
    (analyzeDomain demoData "facebook.com").crossReferenceScore = 100 :=
  (C1_cross_reference_score demoData "facebook.com"
      (analyzeDomain demoData "facebook.com") (by decide)).2
    (by decide) (by decide) (by decide) (by decide) (by decide) (by decide)

/-! ### Claim C2 -/

/-- C2: in every captured T-1 test trace, whenever a navigation-start event
occurs, an injection-complete event occurs at a strictly earlier timestamp
(given the configured positive navigation settling delay); on the
empty-cookie error path no navigation event occurs at all. -/
theorem C2_injection_before_navigation (cfg : TimingConfig)
    (count readTime setCookieTime urlTime gotoTime t0 : Nat)
    (hnav : 0 < cfg.navigationDelay) (t : Nat)
    (hmem : (t, TEvent.navStart) ∈
      t1TestTrace cfg count readTime setCookieTime urlTime gotoTime t0) :
    ∃ tInj, (tInj, TEvent.injectionComplete) ∈
        t1TestTrace cfg count readTime setCookieTime urlTime gotoTime t0 ∧
      tInj < t := by
  unfold t1TestTrace at hmem ⊢
  by_cases hc : count = 0
  · simp [hc] at hmem
  · simp only [hc, if_false, List.mem_cons, Prod.mk.injEq, List.mem_singleton,
      List.not_mem_nil, or_false] at hmem
    rcases hmem with ⟨_, h⟩ | ⟨_, h⟩ | ⟨_, h⟩ | ⟨ht, _⟩ | ⟨_, h⟩ <;>
      first
        | exact absurd h (by simp)
        | exact ⟨t0 + cfg.tMinus1Delay + readTime + setCookieTime + cfg.injectionDelay,
            by simp [hc], by omega⟩

/-- C2 witness: a concrete successful trace at the configured delays has
its injection-complete event at time 2502, strictly before the navigation
start at time 3503. -/
theorem C2_injection_before_navigation_witness :
    ∃ tInj, (tInj, TEvent.injectionComplete) ∈ t1TestTrace defaultTiming 3 1 1 1 5 0 ∧
      tInj < 3503 :=
  C2_injection_before_navigation defaultTiming 3 1 1 1 5 0 (by decide) 3503 (by decide)

/-- Bounds of the rounded confidence ratio for arbitrary scores. -/
theorem round_confidence_bounds (L S : Nat) :
    0 ≤ round (((L : ℚ) / ((L : ℚ) + (S : ℚ) + 1 / 10)) * 100) ∧
    round (((L : ℚ) / ((L : ℚ) + (S : ℚ) + 1 / 10)) * 100) ≤ 100 := by
  have hL : (0 : ℚ) ≤ (L : ℚ) := Nat.cast_nonneg L
  have hS : (0 : ℚ) ≤ (S : ℚ) := Nat.cast_nonneg S
  have hden : (0 : ℚ) < (L : ℚ) + (S : ℚ) + 1 / 10 := by linarith
  have hq0 : (0 : ℚ) ≤ (L : ℚ) / ((L : ℚ) + (S : ℚ) + 1 / 10) :=
    div_nonneg hL hden.le
  have hq1 : (L : ℚ) / ((L : ℚ) + (S : ℚ) + 1 / 10) < 1 :=
    (div_lt_one hden).mpr (by linarith)
  constructor
  · rw [round_eq]
    exact Int.le_floor.mpr (by push_cast; nlinarith)
  · rw [round_eq]
    have hfl : ⌊(L : ℚ) / ((L : ℚ) + (S : ℚ) + 1 / 10) * 100 + 1 / 2⌋ < 101 :=
      Int.floor_lt.mpr (by push_cast; nlinarith)
    omega

/-! ### Claim C3 -/

/-- C3 counterexample: the markup "hello" matches no keyword of either
fixed set, yet the classifier returns confidence 95 and verdict LOGGED_IN
(the welcome-bonus trigger "hello" lies outside both keyword sets), so zero
keyword matches does not give confidence 0. -/
theorem C3_counterexample :
    keywordHits loggedInKeywords (toLowerStr "hello") (toLowerStr "") (toLowerStr "") = 0 ∧
    keywordHits loginKeywords (toLowerStr "hello") (toLowerStr "") (toLowerStr "") = 0 ∧
    (performDetectionAnalysis "hello" "" "").confidence = 95 ∧
    (performDetectionAnalysis "hello" "" "").status = "LOGGED_IN" := by
  have hL : (performDetectionAnalysis "hello" "" "").loggedInScore = 2 := by decide
  have hS : (performDetectionAnalysis "hello" "" "").loginScore = 0 := by decide
  have hrfl : (performDetectionAnalysis "hello" "" "").confidence =
      round ((((performDetectionAnalysis "hello" "" "").loggedInScore : ℚ) /
        (((performDetectionAnalysis "hello" "" "").loggedInScore : ℚ) +
         ((performDetectionAnalysis "hello" "" "").loginScore : ℚ) + 1 / 10)) * 100) := rfl
  have hc : (performDetectionAnalysis "hello" "" "").confidence = 95 := by
    rw [hrfl, hL, hS, round_eq]
    norm_num
  refine ⟨by decide, by decide, hc, ?_⟩
  have hlog : (performDetectionAnalysis "hello" "" "").isLoggedIn =
      decide ((performDetectionAnalysis "hello" "" "").confidence ≥ 60) := rfl
  have hst : (performDetectionAnalysis "hello" "" "").status =
      (if (performDetectionAnalysis "hello" "" "").isLoggedIn then "LOGGED_IN"
       else "NOT_LOGGED_IN") := rfl
  rw [hst, hlog, hc]
  rfl

/-- C3 amended: the classifier confidence equals
round(loggedInScore / (loggedInScore + loginScore + 0.1) * 100) with
loggedInScore including the structural bonuses, confidence always lies in
[0, 100], and when neither keyword set matches AND the markup does not
contain the bonus trigger "hello", confidence is exactly 0 and the verdict
is NOT_LOGGED_IN. -/
theorem C3_confidence (html title url : String) :
    (performDetectionAnalysis html title url).confidence =
      round ((((performDetectionAnalysis html title url).loggedInScore : ℚ) /
        (((performDetectionAnalysis html title url).loggedInScore : ℚ) +
         ((performDetectionAnalysis html title url).loginScore : ℚ) + 1 / 10)) * 100) ∧
    (0 ≤ (performDetectionAnalysis html title url).confidence ∧
     (performDetectionAnalysis html title url).confidence ≤ 100) ∧
    (keywordHits loggedInKeywords (toLowerStr html) (toLowerStr title) (toLowerStr url) = 0 →
     keywordHits loginKeywords (toLowerStr html) (toLowerStr title) (toLowerStr url) = 0 →
     containsStr (toLowerStr html) "hello" = false →
     (performDetectionAnalysis html title url).confidence = 0 ∧
     (performDetectionAnalysis html title url).status = "NOT_LOGGED_IN") := by
  have hrfl : (performDetectionAnalysis html title url).confidence =
      round ((((performDetectionAnalysis html title url).loggedInScore : ℚ) /
        (((performDetectionAnalysis html title url).loggedInScore : ℚ) +
         ((performDetectionAnalysis html title url).loginScore : ℚ) + 1 / 10)) * 100) := rfl
  refine ⟨hrfl, by rw [hrfl]; exact round_confidence_bounds _ _, ?_⟩
  intro hL hS hHello
  have hall := List.countP_eq_zero.mp hL
  have hbonus : ∀ kw : String, kw ∈ loggedInKeywords →
      containsStr (toLowerStr html) kw = false := by
    intro kw hkw
    have h := hall kw hkw
    simp only [Bool.or_eq_true, not_or, Bool.not_eq_true] at h
    exact h.1.1
  have hscoreL : (performDetectionAnalysis html title url).loggedInScore = 0 := by
    have hunfold : (performDetectionAnalysis html title url).loggedInScore =
        keywordHits loggedInKeywords (toLowerStr html) (toLowerStr title) (toLowerStr url) +
        (if containsStr (toLowerStr html) "logout" ||
            containsStr (toLowerStr html) "sign out" then 3 else 0) +
        (if containsStr (toLowerStr html) "welcome" ||
            containsStr (toLowerStr html) "hello" then 2 else 0) +
        (if containsStr (toLowerStr html) "profile" ||
            containsStr (toLowerStr html) "account" then 2 else 0) +
        (if containsStr (toLowerStr html) "dashboard" ||
            containsStr (toLowerStr html) "inbox" then 3 else 0) := rfl
    rw [hunfold, hL,
      hbonus "logout" (by decide), hbonus "sign out" (by decide),
      hbonus "welcome" (by decide), hHello,
      hbonus "profile" (by decide), hbonus "account" (by decide),
      hbonus "dashboard" (by decide), hbonus "inbox" (by decide)]
    rfl
  have hc : (performDetectionAnalysis html title url).confidence = 0 := by
    rw [hrfl, hscoreL]
    simp
  refine ⟨hc, ?_⟩
  have hlog : (performDetectionAnalysis html title url).isLoggedIn =
      decide ((performDetectionAnalysis html title url).confidence ≥ 60) := rfl
  have hst : (performDetectionAnalysis html title url).status =
      (if (performDetectionAnalysis html title url).isLoggedIn then "LOGGED_IN"
       else "NOT_LOGGED_IN") := rfl
  rw [hst, hlog, hc]
  rfl

/-- C3 witness: empty markup, title and URL give zero keyword hits, no
bonus trigger, confidence 0 and verdict NOT_LOGGED_IN. -/
theorem C3_confidence_witness :
    (performDetectionAnalysis "" "" "").confidence = 0 ∧
    (performDetectionAnalysis "" "" "").status = "NOT_LOGGED_IN" :=
  (C3_confidence "" "" "").2.2 (by decide) (by decide) (by decide)

/-! ### Claim C4 -/

/-- C4 counterexample: at expiry = now = 1000 the v2-variant filter
`isCookieExpired` accepts the record (reports it not expired) even though
expiry is neither 0 nor strictly greater than now, while the part_001
filter rejects it; so the claimed strict acceptance condition does not hold
at the cited `isCookieExpired` site. -/
theorem C4_counterexample :
    isCookieExpired expiry1000Line 1000 = false ∧
    cookieLineValid expiry1000Line 1000 = false ∧
    ¬((1000 : Int) = 0 ∨ (1000 : Int) > 1000) := by decide

/-- C4 amended: for a well-formed cookie line with numeric expiry e, the
part_001 filter (used at both discovery and injection time) accepts iff
e = 0 or e > now, while the v2-variant `isCookieExpired` additionally
accepts the boundary case e = now: it reports not-expired iff e = 0 or
e ≥ now. -/
theorem C4_validity_filter (line : String) (now e : Int)
    (hlen : (splitTab line).length ≥ 7)
    (hparse : parseIntJS ((splitTab line).getD 4 "") = some e) :
    (cookieLineValid line now = true ↔ (e = 0 ∨ e > now)) ∧
    (isCookieExpired line now = false ↔ (e = 0 ∨ e ≥ now)) := by
  have hlen2 : ¬ (splitTab line).length < 7 := by omega
  constructor
  · simp only [cookieLineValid, hparse, isValidExpiry, Bool.and_eq_true,
      Bool.or_eq_true, decide_eq_true_eq, gt_iff_lt]
    omega
  · simp only [isCookieExpired, hparse, hlen2, if_false, Bool.and_eq_false_iff,
      decide_eq_false_iff_not, ne_eq, not_not, not_lt, ge_iff_le]

/-- C4 witness: the same line at now = 999 is accepted by both filters,
matching the amended acceptance conditions. -/
theorem C4_validity_filter_witness :
    (cookieLineValid expiry1000Line 999 = true ↔
      ((1000 : Int) = 0 ∨ (1000 : Int) > 999)) ∧
    (isCookieExpired expiry1000Line 999 = false ↔
      ((1000 : Int) = 0 ∨ (1000 : Int) ≥ 999)) :=
  C4_validity_filter expiry1000Line 999 1000 (by decide) (by decide)

/-! ### Claim C5 -/

/-- C5 counterexample: within one discovery-time filtering pass over two
identical still-valid cookie lines, a clock that advances by one second
between the per-line `Date.now()` calls makes the first line valid and the
second expired, while a constant clock accepts both — so the two cookies of
one pass are compared against different timestamps. -/
theorem C5_counterexample :
    (processCookieFile twoCookieLines (fun k => 999 + (k : Int))).validCount = 1 ∧
    (processCookieFile twoCookieLines (fun k => 999 + (k : Int))).expiredCount = 1 ∧
    (processCookieFile twoCookieLines (fun _ => 999)).validCount = 2 := by decide

/-- C5 amended: the injection-time filter `readAndValidateCookies` does
evaluate the timestamp once per pass — its output depends only on the first
clock value — whereas the discovery-time filter re-evaluates the timestamp
for every cookie line. -/
theorem C5_injection_single_now (content : String) (clock clock₂ : Nat → Int)
    (h : clock 0 = clock₂ 0) :
    readAndValidateCookies content clock = readAndValidateCookies content clock₂ := by
  unfold readAndValidateCookies
  rw [h]

/-- C5 witness: the advancing and the constant clock of the counterexample
agree at index 0, so the injection-time filter treats them identically. -/
theorem C5_injection_single_now_witness :
    readAndValidateCookies twoCookieLines (fun k => 999 + (k : Int)) =
      readAndValidateCookies twoCookieLines (fun _ => 999) :=
  C5_injection_single_now twoCookieLines (fun k => 999 + (k : Int)) (fun _ => 999)
    (by decide)

/-! ### Claim C6 -/

/-- C6 counterexample: the URL https://example.com/homework has no path
segment equal to any fixed pattern, yet the source classifies it as an
authenticated endpoint because the substring "/home" occurs in it. -/
theorem C6_counterexample :
    isAuthenticatedUrl "https://example.com/homework" = true ∧
    isAuthenticatedUrlSpec "https://example.com/homework" = false := by decide

/-- C6 amended: the extraction classifies a history URL as an
authenticated endpoint iff the lowercased URL contains one of the fixed
patterns as a substring anywhere (not iff a path segment equals one). -/
theorem C6_substring_semantics (url : String) :
    isAuthenticatedUrl url = true ↔
      ∃ p ∈ authPatterns, ∃ l r, (toLowerStr url).data = l ++ p.data ++ r := by
  simp only [isAuthenticatedUrl, List.any_eq_true, containsStr, containsSub_iff]

/-! ### Claim C7 -/

/-- C7 counterexample: a cookie record with domain field ".example.com"
keeps its leading dot and a cookie domain keeps its letter case, while a
history record for the same site is keyed by the bare lowercase hostname,
and "www." is never stripped — so the claimed normalization (dot and www
stripped, lowercased) does not hold and the same site receives different
keys in different artifact maps. -/
theorem C7_counterexample :
    cookieDomainKey ".example.com" = ".example.com" ∧
    cookieDomainKey "Example.com" = "Example.com" ∧
    (processHistoryLine "http://www.example.com/a\tT\t2").map Prod.fst =
      some "www.example.com" ∧
    (processHistoryLine "http://example.com/a\tT\t2").map Prod.fst =
      some "example.com" ∧
    (".example.com" : String) ≠ "example.com" ∧
    ("www.example.com" : String) ≠ "example.com" := by decide

/-- C7 amended: each record is keyed by exactly one domain string, but the
normalization only removes a single leading character (cookie kinds) or a
leading "www" (URL kinds) when the following character is not a word
character, dot or hyphen; hence keys keep leading dots and "www." prefixes,
and the cookie-map key and URL-map key coincide exactly on hostname-like
strings made of word, dot and hyphen characters. -/
theorem C7_domain_keys (s : String) :
    (∀ t, s.data = '.' :: t → cookieDomainKey s = s) ∧
    (∀ t, s.data = 'w' :: 'w' :: 'w' :: '.' :: t → wwwStrip s = s) ∧
    (s.data ≠ [] → (∀ c ∈ s.data, isWordDotDash c = true) →
      cookieDomainKey s = s ∧ wwwStrip s = s) := by
  refine ⟨?_, ?_, ?_⟩
  · intro t ht
    unfold cookieDomainKey
    split
    · rfl
    · next c rest heq =>
      rw [ht] at heq
      injection heq with h1 h2
      rw [if_pos]
      rw [← h1]
      decide
  · intro t ht
    unfold wwwStrip
    split
    · next c rest heq =>
      rw [ht] at heq
      injection heq with h1 heq
      injection heq with h2 heq
      injection heq with h3 heq
      injection heq with h4 heq
      rw [if_pos]
      rw [← h4]
      decide
    · rfl
  · intro hne hall
    constructor
    · unfold cookieDomainKey
      split
      · rfl
      · next c rest heq =>
        rw [if_pos (hall c (by rw [heq]; exact List.mem_cons_self c rest))]
    · unfold wwwStrip
      split
      · next c rest heq =>
        rw [if_pos (hall c (by rw [heq]; simp))]
      · rfl

/-- C7 witness: concrete leading-dot, leading-www and plain-hostname
inputs instantiate the amended key behavior. -/
theorem C7_domain_keys_witness :
    cookieDomainKey ".example.com" = ".example.com" ∧
    wwwStrip "www.example.com" = "www.example.com" ∧
    (cookieDomainKey "example.com" = "example.com" ∧
     wwwStrip "example.com" = "example.com") :=
  ⟨(C7_domain_keys ".example.com").1 "example.com".data rfl,
   (C7_domain_keys "www.example.com").2.1 "example.com".data rfl,
   (C7_domain_keys "example.com").2.2 (by decide) (by decide)⟩

/-! ### Claim C8 -/

/-- C8: when the validated cookie list of one domain is empty, that test is
recorded as an errored result carrying the NoCookiesError message and the
run continues — the result list still has one entry per prepared domain. -/
theorem C8_no_cookies_error (clock : Nat → Int) (inputs : List DomainTestInput)
    (i : Nat) (inp : DomainTestInput)
    (hin : inputs[i]? = some inp)
    (hempty : readAndValidateCookies inp.cookieFileContent clock = []) :
    (runAutoTestingMode clock inputs).length = inputs.length ∧
    (runAutoTestingMode clock inputs)[i]? =
      some (TestRecord.errored inp.domain
        ("No valid cookies found for " ++ inp.domain)) := by
  constructor
  · simp [runAutoTestingMode]
  · simp [runAutoTestingMode, List.getElem?_map, hin, runDomainTest, hempty]

/-- C8 witness: in a two-domain run whose first domain has an empty cookie
file, the first result is the errored record and the run still produces a
result for both domains. -/
theorem C8_no_cookies_error_witness :
    (runAutoTestingMode (fun _ => 0) demoTestInputs).length = demoTestInputs.length ∧
    (runAutoTestingMode (fun _ => 0) demoTestInputs)[0]? =
      some (TestRecord.errored "a.com" ("No valid cookies found for " ++ "a.com")) :=
  C8_no_cookies_error (fun _ => 0) demoTestInputs 0
    { domain := "a.com", cookieFileContent := ""
      pageHtml := "", pageTitle := "", pageUrl := "" }
    (by decide) (by decide)

/-! ### Claim C9 -/

/-- C9 counterexample: when every result errored the denominator is zero
and the computed success rate is the JavaScript NaN (no rational value),
not the claimed 0. -/
theorem C9_counterexample :
    (saveTestResultsSummary [TestRecord.errored "a.com" "boom"]).successRate = none ∧
    (saveTestResultsSummary [TestRecord.errored "a.com" "boom"]).successRate ≠ some 0 := by
  have h : (saveTestResultsSummary [TestRecord.errored "a.com" "boom"]).successRate
      = none := by
    simp [saveTestResultsSummary, jsDivOpt, isErrorRec, isSuccessfulRec, isFailedRec]
  exact ⟨h, by rw [h]; simp⟩

/-- C9 amended: the success rate equals successful / (total − errored)
whenever some test did not error; when every test errored (or no test ran)
the denominator is zero and the computed value is NaN, embedded as none,
rather than 0. -/
theorem C9_success_rate (results : List TestRecord) :
    (results.countP isErrorRec < results.length →
      (saveTestResultsSummary results).successRate =
        some ((results.countP isSuccessfulRec : ℚ) /
          ((results.length - results.countP isErrorRec : Nat) : ℚ))) ∧
    (results.countP isErrorRec = results.length →
      (saveTestResultsSummary results).successRate = none) := by
  constructor
  · intro h
    have hne : ((results.length - results.countP isErrorRec : Nat) : ℚ) ≠ 0 := by
      exact_mod_cast Nat.sub_ne_zero_of_lt h
    simp [saveTestResultsSummary, jsDivOpt, hne]
  · intro h
    have hz : ((results.length - results.countP isErrorRec : Nat) : ℚ) = 0 := by
      rw [h]
      simp
    simp [saveTestResultsSummary, jsDivOpt, hz]

/-- C9 witness: a run with one completed logged-in test has success rate
1 / 1. -/
theorem C9_success_rate_witness :
    (saveTestResultsSummary [demoCompletedRecord]).successRate =
      some (([demoCompletedRecord].countP isSuccessfulRec : ℚ) /
        (([demoCompletedRecord].length - [demoCompletedRecord].countP isErrorRec :
          Nat) : ℚ)) :=
  (C9_success_rate [demoCompletedRecord]).1 (by decide)

/-! ### Claim C10 -/

/-- C10: a well-formed cookie line whose expiry does not parse as an
integer is handled totally at both v3 filter sites: the discovery pass
counts it expired, adds nothing to any domain record list, and the
injection pass excludes it, since a NaN expiry is neither 0 nor greater
than now. -/
theorem C10_nan_expiry (clock : Nat → Int) (st : DiscoveryState) (now : Int)
    (acc : List PuppeteerCookie) (line : String)
    (hlen : (splitTab line).length ≥ 7)
    (hparse : parseIntJS ((splitTab line).getD 4 "") = none) :
    (discoveryStep clock st line).validCount = st.validCount ∧
    (discoveryStep clock st line).expiredCount = st.expiredCount + 1 ∧
    (∀ d, (alLookup (discoveryStep clock st line).domainCookies d).getD [] =
          (alLookup st.domainCookies d).getD []) ∧
    injectionStep now acc line = acc := by
  have hvalid : ∀ t : Int, isValidExpiry (parseIntJS ((splitTab line).getD 4 "")) t
      = false := by
    intro t
    rw [hparse]
    rfl
  have hvalid₂ : ∀ t : Int,
      isValidExpiry (parseIntJS ((splitTab line)[4]?.getD "")) t = false := by
    intro t
    rw [← List.getD_eq_getElem?_getD]
    exact hvalid t
  refine ⟨?_, ?_, ?_, ?_⟩
  · simp [discoveryStep, hlen, hvalid, hvalid₂]
  · simp [discoveryStep, hlen, hvalid, hvalid₂]
  · intro d
    simp [discoveryStep, hlen, hvalid, hvalid₂, alEnsure_lookup_getD]
  · simp [injectionStep, hlen, hvalid, hvalid₂]

/-- C10 witness: a concrete line with expiry field "notanumber" is counted
expired at discovery, stored nowhere, and excluded from injection. -/
theorem C10_nan_expiry_witness :
    (discoveryStep (fun _ => 0) ⟨[], 0, 0, 0⟩ nanLine).validCount = 0 ∧
    (discoveryStep (fun _ => 0) ⟨[], 0, 0, 0⟩ nanLine).expiredCount = 1 ∧
    (alLookup (discoveryStep (fun _ => 0) ⟨[], 0, 0, 0⟩ nanLine).domainCookies
      "example.com").getD [] = [] ∧
    injectionStep 0 [] nanLine = [] := by
  have h := C10_nan_expiry (fun _ => 0) ⟨[], 0, 0, 0⟩ 0 [] nanLine
    (by decide) (by decide)
  exact ⟨h.1, h.2.1, (h.2.2.1 "example.com").trans rfl, h.2.2.2⟩

end CheckCookie
